import Mathlib

/-!
Shallow embedding of the BulkChat Streamlit client (src/streamlit.py).

The program is a thin UI over four remote HTTP endpoints.  We model JSON
values, the HTTP layer (transport failures, HTTP error statuses,
undecodable bodies, decoded JSON bodies), Python exceptions as an
explicit error monad, and the four call-site wrappers upload_pdfs,
query_rag, check_api_status and get_available_modes, plus the chat-input
handler, the per-file icon logic of the Process-PDFs handler, and the
mode-selector default logic.  Network effects are made explicit: each
wrapper takes the outcome the network would deliver as an argument, and
functions that may or may not perform a request also return a Bool
recording whether the request was made.
-/

/-- JSON values, as decoded by response.json().  Numbers are modelled as
integers (no claim involves numeric bodies). -/
inductive Json where
  | null
  | bool (b : Bool)
  | num (n : Int)
  | str (s : String)
  | arr (xs : List Json)
  | obj (fields : List (String × Json))

/-- Python exceptions that the modelled code can raise.  requestException
covers requests.exceptions.RequestException and its subclasses, which is
what the except clauses at lines 22 and 34 of src/streamlit.py catch. -/
inductive PyExn where
  | requestException (msg : String)
  | attributeError (msg : String)
  | typeError (msg : String)
  | keyError (msg : String)
deriving DecidableEq

/-- An HTTP response that arrived: a status code and a body that either
decodes as JSON or does not. -/
structure HttpResponse where
  statusCode : Nat
  jsonBody : Option Json

/-- Outcome the network delivers for one request: either the transport
fails (requests.post / requests.get raises), or a response arrives. -/
inductive Transport where
  | failure (msg : String)
  | response (r : HttpResponse)

/-- response.raise_for_status(): raises HTTPError (a RequestException)
for status codes of 400 and above. -/
def raise_for_status (r : HttpResponse) : Except PyExn Unit :=
  if 400 ≤ r.statusCode then
    Except.error (PyExn.requestException ("HTTP error " ++ toString r.statusCode))
  else
    Except.ok ()

/-- response.json(): returns the decoded body, or raises
requests.exceptions.JSONDecodeError, which since requests 2.27 is a
subclass of RequestException. -/
def response_json (r : HttpResponse) : Except PyExn Json :=
  match r.jsonBody with
  | some j => Except.ok j
  | none => Except.error (PyExn.requestException "JSONDecodeError")

/-- The request pattern shared by all four wrappers:
response = requests.…(…); response.raise_for_status(); response.json(). -/
def tryRequest (net : Transport) : Except PyExn Json :=
  match net with
  | Transport.failure m => Except.error (PyExn.requestException m)
  | Transport.response r =>
      match raise_for_status r with
      | Except.error e => Except.error e
      | Except.ok _ =>
          match r.jsonBody with
          | some j => Except.ok j
          | none => Except.error (PyExn.requestException "JSONDecodeError")

/-- Lookup of a key in a Python dict modelled as an association list. -/
def dictFind : List (String × Json) → String → Option Json
  | [], _ => none
  | (k, v) :: fs, key => if k = key then some v else dictFind fs key

/-- The error dictionary built at lines 13, 23, 35 and 44:
a dict with status "error" and the given message. -/
def apiError (msg : String) : Json :=
  Json.obj [("status", Json.str "error"), ("message", Json.str msg)]

/-- An uploaded file: its name and the bytes of file.getvalue(). -/
structure FileObj where
  name : String
  bytes : List Nat
deriving DecidableEq

/-- Line 16: files_data, one multipart part per file, field name "files",
content type application/pdf. -/
def files_data (files : List FileObj) : List (String × (String × List Nat × String)) :=
  files.map (fun f => ("files", (f.name, f.bytes, "application/pdf")))

/-- upload_pdfs (lines 10-23).  Returns the Python result (or an escaped
exception) together with a Bool recording whether requests.post ran. -/
def upload_pdfs (files : List FileObj) (net : Transport) :
    Except PyExn Json × Bool :=
  if files.isEmpty then
    (Except.ok (apiError "No files selected"), false)
  else
    match tryRequest net with
    | Except.ok b => (Except.ok b, true)
    | Except.error (PyExn.requestException m) =>
        (Except.ok (apiError ("API error: " ++ m)), true)
    | Except.error e => (Except.error e, true)

/-- The JSON payload of the query request (line 30). -/
def query_payload (query mode : String) : Json :=
  Json.obj [("query", Json.str query), ("mode", Json.str mode)]

/-- query_rag (lines 25-35).  The network is always contacted; only
RequestException is caught. -/
def query_rag (query mode : String) (net : Transport) : Except PyExn Json :=
  let _payload := query_payload query mode
  match tryRequest net with
  | Except.ok b => Except.ok b
  | Except.error (PyExn.requestException m) =>
      Except.ok (apiError ("API error: " ++ m))
  | Except.error e => Except.error e

/-- check_api_status (lines 37-44).  The bare except catches every
exception, so the function is total. -/
def check_api_status (net : Transport) : Json :=
  match tryRequest net with
  | Except.ok b => b
  | Except.error _ => apiError "API is not available"

/-- The hardcoded fallback dictionary of get_available_modes
(lines 54-63). -/
def default_modes : Json :=
  Json.obj [
    ("available_modes", Json.arr [
      Json.obj [("name", Json.str "hybrid"),
                ("description", Json.str "Combines local and global approaches")],
      Json.obj [("name", Json.str "local"),
                ("description", Json.str "Uses local context for retrieving relevant information")],
      Json.obj [("name", Json.str "global"),
                ("description", Json.str "Uses global context for broader information retrieval")],
      Json.obj [("name", Json.str "naive"),
                ("description", Json.str "Simple text matching without context awareness")],
      Json.obj [("name", Json.str "mix"),
                ("description", Json.str "Mix of different search strategies")]]),
    ("default_mode", Json.str "hybrid")]

/-- get_available_modes (lines 46-63).  The bare except catches every
exception and substitutes the hardcoded fallback. -/
def get_available_modes (net : Transport) : Json :=
  match tryRequest net with
  | Except.ok b => b
  | Except.error _ => default_modes

/- Python equality on JSON values, as used by the == and in operators,
defined by mutual structural recursion with its list and field variants.
(The Python quirks 1 == True and 1 == 1.0 do not arise here: every
comparison in the program is against a string literal.) -/
mutual

/-- Python == on JSON values. -/
def jeq : Json → Json → Bool
  | Json.null, Json.null => true
  | Json.bool a, Json.bool b => a == b
  | Json.num a, Json.num b => a == b
  | Json.str a, Json.str b => a == b
  | Json.arr a, Json.arr b => jeqList a b
  | Json.obj a, Json.obj b => jeqFields a b
  | _, _ => false

def jeqList : List Json → List Json → Bool
  | [], [] => true
  | x :: xs, y :: ys => jeq x y && jeqList xs ys
  | _, _ => false

def jeqFields : List (String × Json) → List (String × Json) → Bool
  | [], [] => true
  | (k, v) :: fs, (l, w) :: gs => k == l && jeq v w && jeqFields fs gs
  | _, _ => false

end

/-- A single-quote character, used by the Python repr of strings. -/
def pyQ : String := String.singleton (Char.ofNat 39)

/- Python repr() of a JSON value, mutually recursive with the renderers
for list items and dict fields.  String escaping inside reprs is not
modelled; no claim exercises it. -/
mutual

/-- Python repr() of a JSON value. -/
def pyRepr : Json → String
  | Json.null => "None"
  | Json.bool true => "True"
  | Json.bool false => "False"
  | Json.num n => toString n
  | Json.str s => pyQ ++ s ++ pyQ
  | Json.arr xs => "[" ++ pyReprItems xs ++ "]"
  | Json.obj fs => "\x7b" ++ pyReprFields fs ++ "\x7d"

def pyReprItems : List Json → String
  | [] => ""
  | [x] => pyRepr x
  | x :: y :: xs => pyRepr x ++ ", " ++ pyReprItems (y :: xs)

def pyReprFields : List (String × Json) → String
  | [] => ""
  | [(k, v)] => pyQ ++ k ++ pyQ ++ ": " ++ pyRepr v
  | (k, v) :: g :: fs => pyQ ++ k ++ pyQ ++ ": " ++ pyRepr v ++ ", " ++ pyReprFields (g :: fs)

end

/-- Python str() of a JSON value, as applied by an f-string. -/
def pyStr : Json → String
  | Json.str s => s
  | j => pyRepr j

/-- d.get(key, default) on a Python value: works on dicts, raises
AttributeError otherwise. -/
def pyDictGet (j : Json) (k : String) (dflt : Json) : Except PyExn Json :=
  match j with
  | Json.obj fs => Except.ok ((dictFind fs k).getD dflt)
  | _ => Except.error (PyExn.attributeError ("object has no attribute " ++ pyQ ++ "get" ++ pyQ))

/-- j[key] with a string key: dict lookup (KeyError when absent);
TypeError on values that are not string-subscriptable. -/
def pyIndex (j : Json) (k : String) : Except PyExn Json :=
  match j with
  | Json.obj fs =>
      match dictFind fs k with
      | some v => Except.ok v
      | none => Except.error (PyExn.keyError k)
  | _ => Except.error (PyExn.typeError "object is not subscriptable")

/-- Does the needle occur at the head of the haystack? -/
def leadMatch : List Char → List Char → Bool
  | [], _ => true
  | _ :: _, [] => false
  | n :: ns, h :: hs => n == h && leadMatch ns hs

/-- Does the needle occur anywhere in the haystack (Python substring test)? -/
def occursIn (needle : List Char) : List Char → Bool
  | [] => needle.isEmpty
  | h :: hs => leadMatch needle (h :: hs) || occursIn needle hs

/-- The Python expression (needle in j) for a string needle: key test on
dicts, membership on lists, substring test on strings, TypeError else. -/
def pyIn (needle : String) (j : Json) : Except PyExn Bool :=
  match j with
  | Json.obj fs => Except.ok (dictFind fs needle).isSome
  | Json.arr xs => Except.ok (xs.any (fun x => jeq x (Json.str needle)))
  | Json.str s => Except.ok (occursIn needle.data s.data)
  | _ => Except.error (PyExn.typeError "argument is not iterable")

/-- One entry of the session transcript (spec: role is "user" or
"assistant"; content is the appended Python value). -/
structure Message where
  role : String
  content : Json

/-- Lines 75-76: st.session_state.messages starts empty. -/
def init_messages : List Message := []

/-- Lines 132-134: the transcript display iterates the entries in list
order, rendering role and content of each. -/
def display_transcript (msgs : List Message) : List (String × Json) :=
  msgs.map (fun m => (m.role, m.content))

/-- Line 80: api_ready = api_status.get("status") == "ready". -/
def api_ready_of (api_status : Json) : Except PyExn Bool := do
  let s ← pyDictGet api_status "status" Json.null
  pure (jeq s (Json.str "ready"))

/-- The chat-input handler (lines 137-163) acting on the transcript.
Returns the new transcript (or an escaped exception) and a Bool recording
whether the query endpoint was contacted. -/
def handle_chat (ready : Bool) (mode : String) (net : Transport)
    (prompt : String) (msgs : List Message) :
    Except PyExn (List Message) × Bool :=
  let msgs1 := msgs ++ [⟨"user", Json.str prompt⟩]
  if ready then
    match query_rag prompt mode net with
    | Except.error e => (Except.error e, true)
    | Except.ok response =>
        match pyIn "response" response with
        | Except.error e => (Except.error e, true)
        | Except.ok true =>
            match pyIndex response "response" with
            | Except.error e => (Except.error e, true)
            | Except.ok result =>
                (Except.ok (msgs1 ++ [⟨"assistant", result⟩]), true)
        | Except.ok false =>
            match pyDictGet response "message" (Json.str "Unknown error occurred") with
            | Except.error e => (Except.error e, true)
            | Except.ok m =>
                (Except.ok (msgs1 ++ [⟨"assistant", Json.str ("Error: " ++ pyStr m)⟩]), true)
  else
    (Except.ok (msgs1 ++ [⟨"assistant", Json.str "Upload and process some PDFs broo!"⟩]), false)

/-- Line 99 of the Process-PDFs handler: the status icon of one per-file
result dict. -/
def status_icon (file_result : Json) : Except PyExn String := do
  let s ← pyIndex file_result "status"
  pure (if jeq s (Json.str "success") then "✅" else "❌")

/-- Python iteration over a JSON value, as used by the dict comprehension
at line 109: lists yield their items, dicts their keys, strings their
characters; other values raise TypeError. -/
def pyIter (j : Json) : Except PyExn (List Json) :=
  match j with
  | Json.arr xs => Except.ok xs
  | Json.obj fs => Except.ok (fs.map (fun p => Json.str p.1))
  | Json.str s => Except.ok (s.data.map (fun c => Json.str (String.singleton c)))
  | _ => Except.error (PyExn.typeError "object is not iterable")

/-- d[k] = v on a Python dict with JSON keys: an existing ==-equal key
keeps its position and original key object, only the value is replaced;
a new key goes to the end.  (Hashability of keys is not modelled.) -/
def dictSetJ : List (Json × Json) → Json → Json → List (Json × Json)
  | [], k, v => [(k, v)]
  | (k0, v0) :: fs, k, v =>
      if jeq k0 k then (k0, v) :: fs else (k0, v0) :: dictSetJ fs k v

/-- Line 109: mode_options, the dict comprehension mapping each entry of
modes.get("available_modes", []) from its "name" to its "description". -/
def mode_options (modes : Json) : Except PyExn (List (Json × Json)) := do
  let src ← pyDictGet modes "available_modes" (Json.arr [])
  let items ← pyIter src
  items.foldlM (fun d m => do
    let n ← pyIndex m "name"
    let desc ← pyIndex m "description"
    pure (dictSetJ d n desc)) []

/-- The key list of a JSON-keyed dict: list(d.keys()), in insertion order. -/
def dictKeysJ (d : List (Json × Json)) : List Json := d.map (fun p => p.1)

/-- Python membership (d in keys), testing with ==. -/
def keysContains (keys : List Json) (d : Json) : Bool :=
  keys.any (fun k => jeq k d)

/-- Python list.index restricted to the guarded use at line 115: the
first position whose element is ==-equal to d. -/
def listIndexJ : List Json → Json → Nat
  | [], _ => 0
  | k :: ks, d => if jeq k d then 0 else listIndexJ ks d + 1

/-- Line 115: the index argument of st.selectbox,
keys.index(default_mode) if default_mode is among the keys, else 0. -/
def selectbox_index (keys : List Json) (d : Json) : Nat :=
  if keysContains keys d then listIndexJ keys d else 0

/-- The option st.selectbox selects initially: the element of the option
list at the computed index (none when the option list is empty). -/
def selectbox_default (keys : List Json) (d : Json) : Option Json :=
  keys.get? (selectbox_index keys d)

/-- Stated from the spec wording, for comparison with the code: a result
of shape with status "error" and a message, the uniform error result the
error-handling section promises. -/
def specErrorResult (j : Json) : Bool :=
  match j with
  | Json.obj fs =>
      (match dictFind fs "status", dictFind fs "message" with
       | some (Json.str s), some _ => s == "error"
       | _, _ => false)
  | _ => false

/- ------------------------------------------------------------------ -/
/- Theorems                                                            -/
/- ------------------------------------------------------------------ -/

/-- C6: with zero selected files, upload_pdfs returns the error result
with status "error" and a message, and performs no network request. -/
theorem C6_upload_no_files (net : Transport) :
    upload_pdfs [] net = (Except.ok (apiError "No files selected"), false)
    ∧ specErrorResult (apiError "No files selected") = true := by
  constructor
  · rfl
  · rfl

/-- C2: whenever the modes endpoint call fails (the request raises, the
status code is an error, or the body is not JSON), get_available_modes
returns exactly the built-in result: the five modes hybrid, local,
global, naive, mix in that order with their fixed descriptions, and
default_mode "hybrid". -/
theorem C2_modes_fallback (net : Transport) (e : PyExn)
    (h : tryRequest net = Except.error e) :
    get_available_modes net =
      Json.obj [
        ("available_modes", Json.arr [
          Json.obj [("name", Json.str "hybrid"),
                    ("description", Json.str "Combines local and global approaches")],
          Json.obj [("name", Json.str "local"),
                    ("description", Json.str "Uses local context for retrieving relevant information")],
          Json.obj [("name", Json.str "global"),
                    ("description", Json.str "Uses global context for broader information retrieval")],
          Json.obj [("name", Json.str "naive"),
                    ("description", Json.str "Simple text matching without context awareness")],
          Json.obj [("name", Json.str "mix"),
                    ("description", Json.str "Mix of different search strategies")]]),
        ("default_mode", Json.str "hybrid")] := by
  unfold get_available_modes
  rw [h]
  rfl

/-- Witness for C2 at a concrete transport failure. -/
theorem C2_modes_fallback_witness :
    tryRequest (Transport.failure "connection refused")
      = Except.error (PyExn.requestException "connection refused")
    ∧ get_available_modes (Transport.failure "connection refused")
        = Json.obj [
            ("available_modes", Json.arr [
              Json.obj [("name", Json.str "hybrid"),
                        ("description", Json.str "Combines local and global approaches")],
              Json.obj [("name", Json.str "local"),
                        ("description", Json.str "Uses local context for retrieving relevant information")],
              Json.obj [("name", Json.str "global"),
                        ("description", Json.str "Uses global context for broader information retrieval")],
              Json.obj [("name", Json.str "naive"),
                        ("description", Json.str "Simple text matching without context awareness")],
              Json.obj [("name", Json.str "mix"),
                        ("description", Json.str "Mix of different search strategies")]]),
            ("default_mode", Json.str "hybrid")] :=
  ⟨rfl, C2_modes_fallback (Transport.failure "connection refused")
          (PyExn.requestException "connection refused") rfl⟩

/-- C8: the per-file status icon is a deterministic function of the
status field of the per-file result: "success" gives the success marker,
any other value gives the failure marker, and two results with equal
status fields get equal icons. -/
theorem C8_status_icon (fs gs : List (String × Json)) (v : Json) :
    (dictFind fs "status" = some (Json.str "success") →
        status_icon (Json.obj fs) = Except.ok "✅")
    ∧ (dictFind fs "status" = some v → jeq v (Json.str "success") = false →
        status_icon (Json.obj fs) = Except.ok "❌")
    ∧ (dictFind fs "status" = dictFind gs "status" →
        status_icon (Json.obj fs) = status_icon (Json.obj gs)) := by
  refine ⟨fun h => ?_, fun h hne => ?_, fun h => ?_⟩
  · simp [status_icon, pyIndex, h]
    rfl
  · simp [status_icon, pyIndex, h, hne]
  · simp only [status_icon, pyIndex, h]

/-- Witness for C8 at concrete per-file results. -/
theorem C8_status_icon_witness :
    status_icon (Json.obj [("file", Json.str "a.pdf"), ("status", Json.str "success")])
      = Except.ok "✅"
    ∧ status_icon (Json.obj [("file", Json.str "b.pdf"), ("status", Json.str "failed")])
      = Except.ok "❌" :=
  ⟨(C8_status_icon [("file", Json.str "a.pdf"), ("status", Json.str "success")]
      [] (Json.str "success")).1 rfl,
   ((C8_status_icon [("file", Json.str "b.pdf"), ("status", Json.str "failed")]
      [] (Json.str "failed")).2).1 rfl rfl⟩

/-- C3: when the status endpoint call fails, or when it succeeds but the
status field of the returned dict is anything other than "ready", the
derived api_ready flag is false; and the chat handler in the not-ready
state appends the user entry and exactly one fixed warning entry as the
assistant entry, contacting no endpoint. -/
theorem C3_not_ready (net : Transport) (fs : List (String × Json))
    (mode prompt : String) (msgs : List Message) :
    (∀ e, tryRequest net = Except.error e →
        api_ready_of (check_api_status net) = Except.ok false)
    ∧ (tryRequest net = Except.ok (Json.obj fs) →
        (∀ v, dictFind fs "status" = some v → jeq v (Json.str "ready") = false) →
        api_ready_of (check_api_status net) = Except.ok false)
    ∧ (handle_chat false mode net prompt msgs
        = (Except.ok (msgs ++ [⟨"user", Json.str prompt⟩,
            ⟨"assistant", Json.str "Upload and process some PDFs broo!"⟩]), false)) := by
  refine ⟨fun e h => ?_, fun h hst => ?_, ?_⟩
  · unfold check_api_status
    rw [h]
    rfl
  · unfold check_api_status
    rw [h]
    unfold api_ready_of pyDictGet
    cases hv : dictFind fs "status" with
    | none => simp [hv]; rfl
    | some v =>
        simp [hv]
        simp [hst v hv, Bind.bind, Except.bind, pure, Except.pure]
  · simp [handle_chat]

/-- Witness for C3 at a concrete failing transport and a concrete
not-ready status body. -/
theorem C3_not_ready_witness :
    api_ready_of (check_api_status (Transport.failure "timeout")) = Except.ok false
    ∧ api_ready_of (check_api_status
        (Transport.response ⟨200, some (Json.obj [("status", Json.str "initializing")])⟩))
        = Except.ok false
    ∧ handle_chat false "hybrid" (Transport.failure "timeout") "hi" []
        = (Except.ok [⟨"user", Json.str "hi"⟩,
            ⟨"assistant", Json.str "Upload and process some PDFs broo!"⟩], false) :=
  ⟨(C3_not_ready (Transport.failure "timeout") [] "hybrid" "hi" []).1
      (PyExn.requestException "timeout") rfl,
   ((C3_not_ready (Transport.response ⟨200, some (Json.obj [("status", Json.str "initializing")])⟩)
      [("status", Json.str "initializing")] "hybrid" "hi" []).2).1 rfl
      (by intro v hv; cases hv; rfl),
   ((C3_not_ready (Transport.failure "timeout") [] "hybrid" "hi" []).2).2⟩

/-- C4: when the system is ready and the query endpoint returns a dict
containing a "response" field, the handler appends the user entry and
exactly one assistant entry whose content is exactly that field value. -/
theorem C4_chat_success (prompt mode : String) (msgs : List Message)
    (net : Transport) (fs : List (String × Json)) (v : Json)
    (hnet : tryRequest net = Except.ok (Json.obj fs))
    (hv : dictFind fs "response" = some v) :
    handle_chat true mode net prompt msgs
      = (Except.ok (msgs ++ [⟨"user", Json.str prompt⟩, ⟨"assistant", v⟩]), true) := by
  simp [handle_chat, query_rag, hnet, pyIn, pyIndex, hv]

/-- Witness for C4 at a concrete ready response. -/
theorem C4_chat_success_witness :
    handle_chat true "hybrid"
        (Transport.response ⟨200, some (Json.obj [("response", Json.str "An answer")])⟩)
        "What?" []
      = (Except.ok [⟨"user", Json.str "What?"⟩, ⟨"assistant", Json.str "An answer"⟩], true) :=
  C4_chat_success "What?" "hybrid" []
    (Transport.response ⟨200, some (Json.obj [("response", Json.str "An answer")])⟩)
    [("response", Json.str "An answer")] (Json.str "An answer") rfl rfl

/-- C5: when the system is ready and the query endpoint returns a dict
without a "response" field, the handler appends the user entry and
exactly one assistant entry reading "Error: " followed by the message
field, or "Error: Unknown error occurred" when no message is present. -/
theorem C5_chat_error (prompt mode : String) (msgs : List Message)
    (net : Transport) (fs : List (String × Json))
    (hnet : tryRequest net = Except.ok (Json.obj fs))
    (hno : dictFind fs "response" = none) :
    (∀ s, dictFind fs "message" = some (Json.str s) →
        handle_chat true mode net prompt msgs
          = (Except.ok (msgs ++ [⟨"user", Json.str prompt⟩,
              ⟨"assistant", Json.str ("Error: " ++ s)⟩]), true))
    ∧ (dictFind fs "message" = none →
        handle_chat true mode net prompt msgs
          = (Except.ok (msgs ++ [⟨"user", Json.str prompt⟩,
              ⟨"assistant", Json.str "Error: Unknown error occurred"⟩]), true)) := by
  constructor
  · intro s hs
    simp [handle_chat, query_rag, hnet, pyIn, pyIndex, hno, pyDictGet, hs, pyStr]
  · intro hm
    simp [handle_chat, query_rag, hnet, pyIn, pyIndex, hno, pyDictGet, hm, pyStr]

/-- Witness for C5 at concrete error responses with and without a
message field. -/
theorem C5_chat_error_witness :
    handle_chat true "hybrid"
        (Transport.response ⟨200, some (Json.obj [("status", Json.str "error"),
            ("message", Json.str "boom")])⟩) "q" []
      = (Except.ok [⟨"user", Json.str "q"⟩,
          ⟨"assistant", Json.str "Error: boom"⟩], true)
    ∧ handle_chat true "hybrid"
        (Transport.response ⟨200, some (Json.obj [("status", Json.str "error")])⟩) "q" []
      = (Except.ok [⟨"user", Json.str "q"⟩,
          ⟨"assistant", Json.str "Error: Unknown error occurred"⟩], true) :=
  ⟨(C5_chat_error "q" "hybrid" []
      (Transport.response ⟨200, some (Json.obj [("status", Json.str "error"),
          ("message", Json.str "boom")])⟩)
      [("status", Json.str "error"), ("message", Json.str "boom")] rfl rfl).1 "boom" rfl,
   (C5_chat_error "q" "hybrid" []
      (Transport.response ⟨200, some (Json.obj [("status", Json.str "error")])⟩)
      [("status", Json.str "error")] rfl rfl).2 rfl⟩

/-- Every exception the modelled request pattern raises is a
RequestException: transport failures, HTTPError from raise_for_status,
and JSONDecodeError from response.json() all are. -/
theorem tryRequest_error_is_request (net : Transport) (e : PyExn)
    (h : tryRequest net = Except.error e) :
    ∃ m, e = PyExn.requestException m := by
  cases net with
  | failure m =>
      simp [tryRequest] at h
      exact ⟨m, h.symm⟩
  | response r =>
      unfold tryRequest raise_for_status at h
      by_cases hc : 400 ≤ r.statusCode
      · simp [hc] at h
        exact ⟨_, h.symm⟩
      · simp [hc] at h
        cases hb : r.jsonBody with
        | some j => rw [hb] at h; simp at h
        | none => rw [hb] at h; simp at h; exact ⟨_, h.symm⟩

/-- C9: in every branch of the chat handler — not ready, remote error,
remote success, remote error body — the transcript gains exactly the
user entry with the prompt text followed by exactly one assistant entry
(provided any successfully decoded query body is a dict, the shape the
remote interface documents). -/
theorem C9_user_then_assistant (ready : Bool) (mode prompt : String)
    (msgs : List Message) (net : Transport)
    (h : ready = true → ∀ b, tryRequest net = Except.ok b → ∃ fs, b = Json.obj fs) :
    ∃ a, (handle_chat ready mode net prompt msgs).1
        = Except.ok (msgs ++ [⟨"user", Json.str prompt⟩, ⟨"assistant", a⟩]) := by
  cases ready with
  | false =>
      exact ⟨Json.str "Upload and process some PDFs broo!", by simp [handle_chat]⟩
  | true =>
      cases hnet : tryRequest net with
      | error e =>
          obtain ⟨m, rfl⟩ := tryRequest_error_is_request net e hnet
          refine ⟨Json.str ("Error: " ++ ("API error: " ++ m)), ?_⟩
          simp [handle_chat, query_rag, hnet, pyIn, apiError, dictFind, pyDictGet, pyStr]
      | ok b =>
          obtain ⟨fs, rfl⟩ := h rfl b hnet
          cases hr : dictFind fs "response" with
          | some v =>
              exact ⟨v, by simp [handle_chat, query_rag, hnet, pyIn, pyIndex, hr]⟩
          | none =>
              cases hm : dictFind fs "message" with
              | some m =>
                  refine ⟨Json.str ("Error: " ++ pyStr m), ?_⟩
                  simp [handle_chat, query_rag, hnet, pyIn, pyIndex, hr, pyDictGet, hm]
              | none =>
                  refine ⟨Json.str "Error: Unknown error occurred", ?_⟩
                  simp [handle_chat, query_rag, hnet, pyIn, pyIndex, hr, pyDictGet, hm, pyStr]

/-- Witness for C9 at a concrete ready success response. -/
theorem C9_user_then_assistant_witness :
    (handle_chat true "hybrid"
        (Transport.response ⟨200, some (Json.obj [("response", Json.str "ok!")])⟩)
        "hello" [⟨"user", Json.str "old"⟩]).1
      = Except.ok ([⟨"user", Json.str "old"⟩]
          ++ [⟨"user", Json.str "hello"⟩, ⟨"assistant", Json.str "ok!"⟩]) := by
  obtain ⟨a, ha⟩ := C9_user_then_assistant true "hybrid" "hello"
    [⟨"user", Json.str "old"⟩]
    (Transport.response ⟨200, some (Json.obj [("response", Json.str "ok!")])⟩)
    (fun _ b hb => ⟨[("response", Json.str "ok!")], by
      simp [tryRequest, raise_for_status] at hb
      exact hb.symm⟩)
  have hcalc : (handle_chat true "hybrid"
        (Transport.response ⟨200, some (Json.obj [("response", Json.str "ok!")])⟩)
        "hello" [⟨"user", Json.str "old"⟩]).1
      = Except.ok ([⟨"user", Json.str "old"⟩]
          ++ [⟨"user", Json.str "hello"⟩, ⟨"assistant", Json.str "ok!"⟩]) := rfl
  have h3 := hcalc.symm.trans ha
  have h2 : a = Json.str "ok!" := by
    simp only [Except.ok.injEq, List.append_cancel_left_eq, List.cons.injEq,
      Message.mk.injEq, and_true, true_and] at h3
    exact h3.symm
  rw [h2] at ha
  exact ha

/-- C7: the transcript starts empty, the chat handler only ever appends
(each entry already present is preserved in place and in order), and the
display renders the entries in insertion order. -/
theorem C7_transcript (ready : Bool) (mode prompt : String) (net : Transport)
    (msgs r : List Message) (flag : Bool) (i : Nat) :
    init_messages = []
    ∧ (handle_chat ready mode net prompt msgs = (Except.ok r, flag) →
        ∃ tail, r = msgs ++ tail)
    ∧ (display_transcript msgs).get? i
        = (msgs.get? i).map (fun m => (m.role, m.content)) := by
  refine ⟨rfl, ?_, by simp [display_transcript]⟩
  intro h
  cases ready with
  | false =>
      simp [handle_chat] at h
      exact ⟨_, h.1.symm⟩
  | true =>
      cases hnet : tryRequest net with
      | error e =>
          obtain ⟨m, rfl⟩ := tryRequest_error_is_request net e hnet
          simp [handle_chat, query_rag, hnet, pyIn, apiError, dictFind, pyDictGet] at h
          exact ⟨_, h.1.symm⟩
      | ok b =>
          cases b with
          | null => simp [handle_chat, query_rag, hnet, pyIn] at h
          | bool bb => simp [handle_chat, query_rag, hnet, pyIn] at h
          | num n => simp [handle_chat, query_rag, hnet, pyIn] at h
          | str s =>
              cases hocc : occursIn "response".data s.data with
              | true =>
                  simp [handle_chat, query_rag, hnet, pyIn, hocc, pyIndex] at h
              | false =>
                  simp [handle_chat, query_rag, hnet, pyIn, hocc, pyDictGet] at h
          | arr xs =>
              cases hany : xs.any (fun x => jeq x (Json.str "response")) with
              | true =>
                  simp [handle_chat, query_rag, hnet, pyIn, hany, pyIndex] at h
              | false =>
                  simp [handle_chat, query_rag, hnet, pyIn, hany, pyDictGet] at h
          | obj fs =>
              cases hr : dictFind fs "response" with
              | some v =>
                  simp [handle_chat, query_rag, hnet, pyIn, pyIndex, hr] at h
                  exact ⟨_, h.1.symm⟩
              | none =>
                  simp [handle_chat, query_rag, hnet, pyIn, pyIndex, hr, pyDictGet] at h
                  exact ⟨_, h.1.symm⟩

/-- Witness for C7 at a concrete handler run. -/
theorem C7_transcript_witness :
    init_messages = []
    ∧ (∃ tail, ([⟨"user", Json.str "q"⟩,
        ⟨"assistant", Json.str "Upload and process some PDFs broo!"⟩] : List Message)
          = [] ++ tail) :=
  ⟨(C7_transcript false "hybrid" "q" (Transport.failure "down") [] [] false 0).1,
   (C7_transcript false "hybrid" "q" (Transport.failure "down") []
      [⟨"user", Json.str "q"⟩,
       ⟨"assistant", Json.str "Upload and process some PDFs broo!"⟩] false 0).2.1 rfl⟩

/-- C1 counterexample: a query response that decodes but has an
unexpected shape (a JSON array where the interface documents an object)
is returned by query_rag unchanged, not converted into the uniform
result of shape with status "error" and a message.  So the class of
malformed/unexpected response shapes is not, as the claim states,
converted at the call site. -/
theorem C1_counterexample :
    query_rag "q" "hybrid" (Transport.response ⟨200, some (Json.arr [])⟩)
      = Except.ok (Json.arr [])
    ∧ specErrorResult (Json.arr []) = false :=
  ⟨rfl, rfl⟩

/-- C1 amended: every failure the HTTP layer can raise — transport
failure, HTTP error status via raise_for_status, and an undecodable
body — is caught inside upload_pdfs and query_rag and converted into the
uniform error dict; no exception escapes either function; a body that
decodes is returned unchanged, whatever its shape. -/
theorem C1_amended (q mq : String) (files : List FileObj) (net : Transport) :
    (∃ j, query_rag q mq net = Except.ok j)
    ∧ (∃ j, (upload_pdfs files net).1 = Except.ok j)
    ∧ (∀ em, tryRequest net = Except.error (PyExn.requestException em) →
        query_rag q mq net = Except.ok (apiError ("API error: " ++ em))
        ∧ specErrorResult (apiError ("API error: " ++ em)) = true
        ∧ (files.isEmpty = false →
            upload_pdfs files net
              = (Except.ok (apiError ("API error: " ++ em)), true)))
    ∧ (∀ b, tryRequest net = Except.ok b → query_rag q mq net = Except.ok b) := by
  refine ⟨?_, ?_, ?_, ?_⟩
  · cases hnet : tryRequest net with
    | ok b => exact ⟨b, by simp [query_rag, hnet]⟩
    | error e =>
        obtain ⟨m, rfl⟩ := tryRequest_error_is_request net e hnet
        exact ⟨apiError ("API error: " ++ m), by simp [query_rag, hnet]⟩
  · by_cases hf : files.isEmpty
    · exact ⟨apiError "No files selected", by simp [upload_pdfs, hf]⟩
    · cases hnet : tryRequest net with
      | ok b => exact ⟨b, by simp [upload_pdfs, hf, hnet]⟩
      | error e =>
          obtain ⟨m, rfl⟩ := tryRequest_error_is_request net e hnet
          exact ⟨apiError ("API error: " ++ m), by simp [upload_pdfs, hf, hnet]⟩
  · intro em hnet
    refine ⟨by simp [query_rag, hnet], rfl, fun hf => ?_⟩
    simp [upload_pdfs, hf, hnet]
  · intro b hnet
    simp [query_rag, hnet]

/-- Witness for the amended C1 at a concrete transport failure and a
concrete nonempty file list. -/
theorem C1_amended_witness :
    query_rag "q" "hybrid" (Transport.failure "down")
      = Except.ok (apiError "API error: down")
    ∧ specErrorResult (apiError "API error: down") = true
    ∧ upload_pdfs [⟨"a.pdf", [37, 80, 68, 70]⟩] (Transport.failure "down")
      = (Except.ok (apiError "API error: down"), true) := by
  obtain ⟨h1, h2, h3⟩ :=
    (C1_amended "q" "hybrid" [⟨"a.pdf", [37, 80, 68, 70]⟩]
      (Transport.failure "down")).2.2.1 "down" rfl
  exact ⟨h1, h2, h3 rfl⟩

/-- When Python membership finds d among the keys, list.index returns a
position whose element is ==-equal to d. -/
theorem listIndexJ_get (keys : List Json) (d : Json)
    (h : keysContains keys d = true) :
    ∃ k, keys.get? (listIndexJ keys d) = some k ∧ jeq k d = true := by
  induction keys with
  | nil => simp [keysContains] at h
  | cons k ks ih =>
      by_cases hk : jeq k d = true
      · exact ⟨k, by simp [listIndexJ, hk], hk⟩
      · have h' : keysContains ks d = true := by
          simp only [keysContains, List.any_cons, Bool.or_eq_true] at h
          rcases h with h | h
          · exact absurd h hk
          · simpa [keysContains] using h
        obtain ⟨k0, hg, he⟩ := ih h'
        refine ⟨k0, ?_, he⟩
        rw [List.get?_eq_getElem?] at hg
        simp [listIndexJ, hk, hg]

/-- Python equality against a string is only satisfied by that string. -/
theorem jeq_str_right (k : Json) (s : String) (h : jeq k (Json.str s) = true) :
    k = Json.str s := by
  cases k <;> simp [jeq] at h
  exact congrArg Json.str h

/-- C10: the mode selector falls back to index 0, hence to the first
listed mode, whenever default_mode is not among the keys; and the
initially selected option is ==-equal to default_mode exactly when
default_mode occurs among the keys (for a string default_mode, that
selected option is then default_mode itself). -/
theorem C10_selectbox (keys : List Json) (d : Json) :
    (keysContains keys d = false →
        selectbox_index keys d = 0 ∧ selectbox_default keys d = keys.get? 0)
    ∧ ((∃ k, selectbox_default keys d = some k ∧ jeq k d = true)
        ↔ keysContains keys d = true)
    ∧ (∀ s, d = Json.str s →
        (selectbox_default keys d = some d ↔ keysContains keys d = true)) := by
  have hiff : (∃ k, selectbox_default keys d = some k ∧ jeq k d = true)
      ↔ keysContains keys d = true := by
    constructor
    · rintro ⟨k, hk, he⟩
      have hm : k ∈ keys := List.get?_mem hk
      simp only [keysContains, List.any_eq_true]
      exact ⟨k, hm, he⟩
    · intro h
      obtain ⟨k, hg, he⟩ := listIndexJ_get keys d h
      refine ⟨k, ?_, he⟩
      rw [List.get?_eq_getElem?] at hg
      simp [selectbox_default, selectbox_index, h, hg]
  refine ⟨fun h => ?_, hiff, fun s hs => ?_⟩
  · exact ⟨by simp [selectbox_index, h], by simp [selectbox_default, selectbox_index, h]⟩
  · constructor
    · intro h
      apply hiff.mp
      subst hs
      exact ⟨Json.str s, h, by simp [jeq]⟩
    · intro h
      obtain ⟨k, hk, he⟩ := hiff.mpr h
      subst hs
      rw [jeq_str_right k s he] at hk
      exact hk

/-- Witness for C10: a successful modes object whose default_mode
"hybrid" is not among the two listed names, so the selector falls back
to the first listed mode. -/
theorem C10_selectbox_witness :
    mode_options (Json.obj [
        ("available_modes", Json.arr [
          Json.obj [("name", Json.str "local"), ("description", Json.str "L")],
          Json.obj [("name", Json.str "global"), ("description", Json.str "G")]]),
        ("default_mode", Json.str "hybrid")])
      = Except.ok [(Json.str "local", Json.str "L"), (Json.str "global", Json.str "G")]
    ∧ selectbox_index [Json.str "local", Json.str "global"] (Json.str "hybrid") = 0
    ∧ selectbox_default [Json.str "local", Json.str "global"] (Json.str "hybrid")
        = some (Json.str "local") := by
  have h := (C10_selectbox [Json.str "local", Json.str "global"] (Json.str "hybrid")).1 rfl
  exact ⟨rfl, h.1, h.2.trans rfl⟩
